import Mathlib

/-!
Verification of `plot_glm_day.py`: a script that fetches one day of GOES-16
GLM lightning events from an S3 bucket and plots them.

The embedding models:
  * Python `datetime` values (only the fields the script reads) and the
    `strftime("%Y")`, `strftime("%j")` and `strptime(s, "%Y-%m-%d")` calls;
  * the S3 filesystem as a pair of functions (`glob`, `openDS`), each of
    which may fault, standing for `s3fs.S3FileSystem.glob` and the
    `fs.open`/`xr.open_dataset`/field-extraction sequence;
  * `fetch_glm_day`, `plot_events` and `main` from the script;
  * numpy array values as `List ℚ` (floating-point numbers abstracted as
    rationals; no claim computes float arithmetic on them).

Python exceptions are modelled with `Except`; the distinct exception classes
the script can surface are the constructors of `PyError`.
-/

namespace GLM

/-- Decidable equality for `Except`, needed to evaluate concrete runs. -/
instance {ε α : Type} [DecidableEq ε] [DecidableEq α] : DecidableEq (Except ε α) := fun x y =>
  match x, y with
  | .error a, .error b =>
    if h : a = b then isTrue (by rw [h]) else isFalse (fun he => h (by injection he))
  | .ok a, .ok b =>
    if h : a = b then isTrue (by rw [h]) else isFalse (fun he => h (by injection he))
  | .error _, .ok _ => isFalse (fun he => by injection he)
  | .ok _, .error _ => isFalse (fun he => by injection he)

/-- Exception classes that the script can surface: `argparse` usage errors
(`SystemExit` from the parser), `ValueError` (from `strptime` and from
`np.concatenate`), `RuntimeError` (raised at line 57 of the script), and
any other propagated fault (e.g. a failure while opening a dataset). -/
inductive PyError where
  | usageError (msg : String)
  | valueError (msg : String)
  | runtimeError (msg : String)
  | otherError (msg : String)
deriving DecidableEq

/-- Python `datetime.datetime` restricted to the fields the script can touch.
`strptime("%Y-%m-%d")` leaves the time-of-day fields at zero; they are kept
in the model so that date-only dependence (claim C9) is expressible. -/
structure Datetime where
  year : Nat
  month : Nat
  day : Nat
  hour : Nat
  minute : Nat
  second : Nat
  microsecond : Nat
deriving DecidableEq

/-- Gregorian leap-year rule, as implemented by Python `datetime`. -/
def isLeap (y : Nat) : Bool :=
  y % 4 == 0 && (y % 100 != 0 || y % 400 == 0)

/-- Number of days in month `m` of year `y` (Python `calendar.monthrange`). -/
def daysInMonth (y m : Nat) : Nat :=
  if m = 2 then (if isLeap y then 29 else 28)
  else if m = 4 ∨ m = 6 ∨ m = 9 ∨ m = 11 then 30
  else 31

/-- Ordinal day of year of (y, m, d), the value printed by `strftime("%j")`. -/
def dayOfYear (y m d : Nat) : Nat :=
  ((List.range (m - 1)).map (fun i => daysInMonth y (i + 1))).sum + d

/-- Zero-pad a natural number to two digits, as Python `f"{n:02d}"`. -/
def twoDigit (n : Nat) : String :=
  if n < 10 then "0" ++ toString n else toString n

/-- Zero-pad a natural number to three digits, as `strftime("%j")` does. -/
def pad3 (n : Nat) : String :=
  if n < 10 then "00" ++ toString n
  else if n < 100 then "0" ++ toString n
  else toString n

/-- Zero-pad a natural number to four digits, as `strftime("%Y")` does for
the 4-digit years accepted by `strptime`. -/
def pad4 (n : Nat) : String :=
  if n < 10 then "000" ++ toString n
  else if n < 100 then "00" ++ toString n
  else if n < 1000 then "0" ++ toString n
  else toString n

/-- The string `date.strftime("%Y")` (line 44 of the script). -/
def strftimeY (date : Datetime) : String := pad4 date.year

/-- The string `date.strftime("%j")` (line 45 of the script). -/
def strftimeJ (date : Datetime) : String := pad3 (dayOfYear date.year date.month date.day)

/-- One GLM netCDF object, reduced to the three arrays the script extracts:
`ds["event_lat"]`, `ds["event_lon"]`, `ds["event_energy"]`. -/
structure GlmObject where
  event_lat : List ℚ
  event_lon : List ℚ
  event_energy : List ℚ
deriving DecidableEq

/-- The remote filesystem. `glob` stands for `fs.glob(pattern)` and may
raise (any fault is an `error` carrying the exception text). `openDS`
stands for the `fs.open`/`xr.open_dataset`/three-field-extraction sequence
on one object path: it either yields all three arrays or faults. (In the
script a field extraction can fail after earlier appends, but the exception
then propagates out of `fetch_glm_day`, so the observable behaviour — the
returned value or the raised error — is the same as this atomic model.) -/
structure S3 where
  glob : String → Except String (List String)
  openDS : String → Except String GlmObject

/-- Lexicographic comparison of char lists by code point. -/
def charListLe : List Char → List Char → Bool
  | [], _ => true
  | _ :: _, [] => false
  | a :: as, b :: bs =>
    if a.toNat < b.toNat then true
    else if b.toNat < a.toNat then false
    else charListLe as bs

/-- Lexicographic string order used by Python `sorted` on `str`:
code-point order on the character sequences. -/
def pyStrLe (a b : String) : Bool := charListLe a.data b.data

/-- Insert `s` after every element that is `≤ s` (so equal keys keep
their original relative order). -/
def pyInsert (s : String) : List String → List String
  | [] => [s]
  | x :: xs => if pyStrLe x s then x :: pyInsert s xs else s :: x :: xs

/-- Python `sorted` on a list of strings: a stable ascending sort (string
order is linear, so any stable ascending sort computes the same list;
insertion sort is used here because it is structurally recursive). -/
def pySorted (l : List String) : List String := l.foldl (fun acc s => pyInsert s acc) []

/-- Model of `np.concatenate` on a Python list of 1-D arrays: raises
`ValueError` on an empty list, otherwise concatenates (line 67-69). -/
def np_concatenate (xs : List (List ℚ)) : Except PyError (List ℚ) :=
  if xs.isEmpty then Except.error (PyError.valueError "need at least one array to concatenate")
  else Except.ok xs.flatten

/-- The hour prefix `f"noaa-goes16/GLM-L2-LCFA/{year}/{doy}/{hour:02d}/"`
built at line 53 of the script. -/
def hourPath (year doy : String) (hour : Nat) : String :=
  "noaa-goes16/GLM-L2-LCFA/" ++ year ++ "/" ++ doy ++ "/" ++ twoDigit hour ++ "/"

/-- The inner loop of `fetch_glm_day` (lines 58-64): for each path in
`files`, open the dataset and append its three arrays to the accumulator
lists `lats`, `lons`, `energy`. A fault while opening propagates. -/
def processFiles (fs : S3) (paths : List String)
    (lats lons energy : List (List ℚ)) :
    Except PyError (List (List ℚ) × List (List ℚ) × List (List ℚ)) :=
  match paths with
  | [] => Except.ok (lats, lons, energy)
  | p :: rest =>
    match fs.openDS p with
    | Except.error e => Except.error (PyError.otherError e)
    | Except.ok ds =>
      processFiles fs rest (lats ++ [ds.event_lat]) (lons ++ [ds.event_lon])
        (energy ++ [ds.event_energy])

/-- The outer loop of `fetch_glm_day` (lines 52-64): for each hour, build
the prefix, list `prefix + "*.nc"` (wrapping a listing fault into
`RuntimeError(f"Failed to list files for {prefix}: {exc}")`, line 57),
sort the names, and process the files of that hour. -/
def processHours (fs : S3) (year doy : String) (hours : List Nat)
    (lats lons energy : List (List ℚ)) :
    Except PyError (List (List ℚ) × List (List ℚ) × List (List ℚ)) :=
  match hours with
  | [] => Except.ok (lats, lons, energy)
  | h :: rest =>
    let pfx := hourPath year doy h
    match fs.glob (pfx ++ "*.nc") with
    | Except.error exc =>
      Except.error (PyError.runtimeError ("Failed to list files for " ++ pfx ++ ": " ++ exc))
    | Except.ok names =>
      match processFiles fs (pySorted names) lats lons energy with
      | Except.error e => Except.error e
      | Except.ok (ls, os, es) => processHours fs year doy rest ls os es

/-- The function `fetch_glm_day` (lines 30-70): loop over the 24 hours of
`date`, accumulate the per-object arrays, and `np.concatenate` each of the
three lists. -/
def fetch_glm_day (fs : S3) (date : Datetime) :
    Except PyError (List ℚ × List ℚ × List ℚ) :=
  let year := strftimeY date
  let doy := strftimeJ date
  match processHours fs year doy (List.range 24) [] [] [] with
  | Except.error e => Except.error e
  | Except.ok (lats, lons, energy) =>
    match np_concatenate lats with
    | Except.error e => Except.error e
    | Except.ok a =>
      match np_concatenate lons with
      | Except.error e => Except.error e
      | Except.ok b =>
        match np_concatenate energy with
        | Except.error e => Except.error e
        | Except.ok c => Except.ok (a, b, c)

/-- Effectful map over a list in the `Except` monad, written out so the
spec-level description of the fetch step unfolds conveniently in proofs. -/
def exceptMapM {α β : Type} (f : α → Except PyError β) : List α → Except PyError (List β)
  | [] => Except.ok []
  | a :: l =>
    match f a with
    | Except.error e => Except.error e
    | Except.ok b =>
      match exceptMapM f l with
      | Except.error e => Except.error e
      | Except.ok bs => Except.ok (b :: bs)

/-- Opening one object, with the fault propagated unwrapped (the script
does not catch faults raised while opening/extracting). -/
def openObj (fs : S3) (p : String) : Except PyError GlmObject :=
  match fs.openDS p with
  | Except.error e => Except.error (PyError.otherError e)
  | Except.ok o => Except.ok o

/-- Modelled from the spec: the objects consumed for one hour-bucket — the
names matching `<hour prefix>*.nc`, in lexical sort order, each opened in
turn; a listing fault is wrapped naming the offending prefix. -/
def hourObjects (fs : S3) (year doy : String) (h : Nat) :
    Except PyError (List GlmObject) :=
  let pfx := hourPath year doy h
  match fs.glob (pfx ++ "*.nc") with
  | Except.error exc =>
    Except.error (PyError.runtimeError ("Failed to list files for " ++ pfx ++ ": " ++ exc))
  | Except.ok names => exceptMapM (openObj fs) (pySorted names)

/-- Modelled from the spec: all objects of the day, in hour order (00-23)
and, within each hour, in lexical order of object names. -/
def dayObjectsYD (fs : S3) (year doy : String) : Except PyError (List GlmObject) :=
  match exceptMapM (hourObjects fs year doy) (List.range 24) with
  | Except.error e => Except.error e
  | Except.ok objss => Except.ok objss.flatten

/-- Modelled from the spec: the day's objects for a `datetime`, using only
its date part. -/
def dayObjects (fs : S3) (date : Datetime) : Except PyError (List GlmObject) :=
  dayObjectsYD fs (strftimeY date) (strftimeJ date)

/-- Modelled from the spec: the fetch step described as — enumerate exactly
the 24 hour-buckets, consume each hour's matching objects in lexical order,
and concatenate the per-object arrays in that order. -/
def spec_fetch (fs : S3) (date : Datetime) :
    Except PyError (List ℚ × List ℚ × List ℚ) :=
  match dayObjects fs date with
  | Except.error e => Except.error e
  | Except.ok objs =>
    match np_concatenate (objs.map GlmObject.event_lat) with
    | Except.error e => Except.error e
    | Except.ok a =>
      match np_concatenate (objs.map GlmObject.event_lon) with
      | Except.error e => Except.error e
      | Except.ok b =>
        match np_concatenate (objs.map GlmObject.event_energy) with
        | Except.error e => Except.error e
        | Except.ok c => Except.ok (a, b, c)

/-- The figure built by `plot_events` (lines 73-90), reduced to its data
content: the scatter points `(lon i, lat i)` (from `ax.scatter(lon, lat, ...)`),
the arguments handed elementwise to `np.log10` for the colour channel
(`c=np.log10(energy)`, line 82), and the date-stamped title (line 89). -/
structure Figure where
  points : List (ℚ × ℚ)
  colorArgs : List ℚ
  title : String
deriving DecidableEq

/-- The title string `f"GOES-16 GLM Events {date:%Y-%m-%d}"` (line 89). -/
def titleFor (date : Datetime) : String :=
  "GOES-16 GLM Events " ++ pad4 date.year ++ "-" ++ twoDigit date.month ++ "-" ++
    twoDigit date.day

/-- The function `plot_events` (lines 73-90) as a value: the scatter pairs
longitudes with latitudes, the colour channel applies `log10` to each
element of `energy` (so `colorArgs` records exactly the arguments that
reach `np.log10`), and the title carries the date. -/
def plot_events (lat lon energy : List ℚ) (date : Datetime) : Figure :=
  { points := lon.zip lat
    colorArgs := energy
    title := titleFor date }

/-- A heap of numpy arrays, for expressing that `plot_events` mutates none
of its argument arrays: cells are array contents, arrays are cell indices. -/
structure Heap where
  cells : List (List ℚ)
deriving DecidableEq

/-- Contents of array `i` (empty for a dangling index). -/
def Heap.read (h : Heap) (i : Nat) : List ℚ := h.cells.getD i []

/-- Allocate a fresh array holding `v`; returns the new heap and the index
of the fresh cell. -/
def Heap.alloc (h : Heap) (v : List ℚ) : Heap × Nat :=
  (⟨h.cells ++ [v]⟩, h.cells.length)

/-- Heap-level `np.log10(a)`: reads the source array and allocates a NEW
array holding the elementwise image — numpy ufuncs without an `out=`
argument never write to their input. `log10` itself is a parameter: no
claim depends on its numeric values. -/
def np_log10 (log10 : ℚ → ℚ) (h : Heap) (src : Nat) : Heap × Nat :=
  h.alloc ((h.read src).map log10)

/-- Heap-level `plot_events`: the only array operation in the body is
`np.log10(energy)` (line 82); `scatter` only reads `lon`, `lat` and the
fresh colour array. -/
def plot_events_heap (log10 : ℚ → ℚ) (h : Heap) (latId lonId energyId : Nat)
    (date : Datetime) : Figure × Heap :=
  let res := np_log10 log10 h energyId
  ({ points := (res.1.read lonId).zip (res.1.read latId)
     colorArgs := res.1.read energyId
     title := titleFor date }, res.1)

/-- Whether `argparse` treats a token as an option: it begins with the
default prefix character `-`. -/
def optionLike (s : String) : Bool :=
  match s.data with
  | [] => false
  | c :: _ => c == '-'

/-- The `argparse` step of `main` (lines 94-96): one positional argument
`date`, no other options. An empty argv is a usage error ("the following
arguments are required"), extra arguments are a usage error ("unrecognized
arguments"), and an option-like token (leading `-`) makes the parser exit
before `main`'s body runs (help or usage error) — modelled as a usage
error as well. Any other single token is accepted verbatim: the parser
itself performs NO date validation. -/
def parse_args (argv : List String) : Except PyError String :=
  match argv with
  | [] => Except.error (PyError.usageError "the following arguments are required: date")
  | [s] =>
    if optionLike s then Except.error (PyError.usageError "option-like argument")
    else Except.ok s
  | _ => Except.error (PyError.usageError "unrecognized arguments")

/-- Numeric value of a digit character. -/
def digitVal (c : Char) : Nat := c.toNat - 48

/-- The `%Y` directive of CPython `_strptime`: exactly four digits. -/
def parseY4 : List Char → Option (Nat × List Char)
  | a :: b :: c :: d :: rest =>
    if a.isDigit && b.isDigit && c.isDigit && d.isDigit then
      some (digitVal a * 1000 + digitVal b * 100 + digitVal c * 10 + digitVal d, rest)
    else none
  | _ => none

/-- The `%m` directive: the regex alternatives `1[0-2] | 0[1-9] | [1-9]`,
listed in the order the regex engine tries them (each entry is a candidate
month value with the remaining input). -/
def monthCands : List Char → List (Nat × List Char)
  | [] => []
  | [c] => if c.isDigit && c != '0' then [(digitVal c, [])] else []
  | c1 :: c2 :: rest =>
    (if c1 == '1' && (c2 == '0' || c2 == '1' || c2 == '2') then
      [(10 + digitVal c2, rest)] else [])
    ++ (if c1 == '0' && c2.isDigit && c2 != '0' then [(digitVal c2, rest)] else [])
    ++ (if c1.isDigit && c1 != '0' then [(digitVal c1, c2 :: rest)] else [])

/-- The `%d` directive: the regex alternatives
`3[01] | [12]\d | 0[1-9] | [1-9]`, in engine order. -/
def dayCands : List Char → List (Nat × List Char)
  | [] => []
  | [c] => if c.isDigit && c != '0' then [(digitVal c, [])] else []
  | c1 :: c2 :: rest =>
    (if c1 == '3' && (c2 == '0' || c2 == '1') then [(30 + digitVal c2, rest)] else [])
    ++ (if (c1 == '1' || c1 == '2') && c2.isDigit then
      [(digitVal c1 * 10 + digitVal c2, rest)] else [])
    ++ (if c1 == '0' && c2.isDigit && c2 != '0' then [(digitVal c2, rest)] else [])
    ++ (if c1.isDigit && c1 != '0' then [(digitVal c1, c2 :: rest)] else [])

/-- The regex `(?P<Y>\d\d\d\d)-(?P<m>...)-(?P<d>...)` that CPython
`_strptime` compiles for the format `"%Y-%m-%d"`, matched at the start of
the input with backtracking over the month alternatives (the day group is
last, so its first matching alternative wins); returns the captured
values and the unconsumed remainder. -/
def matchYMD (cs : List Char) : Option (Nat × Nat × Nat × List Char) :=
  match parseY4 cs with
  | none => none
  | some yr =>
    match yr.2 with
    | '-' :: r2 =>
      (monthCands r2).findSome? (fun mc =>
        match mc.2 with
        | '-' :: r4 =>
          match dayCands r4 with
          | [] => none
          | dc :: _ => some (yr.1, mc.1, dc.1, dc.2)
        | _ => none)
    | _ => none

/-- The call `dt.datetime.strptime(s, "%Y-%m-%d")` (line 97): match the
compiled regex against the whole string (`ValueError` if it does not match
or leaves unconverted data), then build the datetime, which validates the
day against the month length and rejects year 0; time-of-day fields are
left at zero. -/
def strptime (s : String) : Except PyError Datetime :=
  match matchYMD s.data with
  | none =>
    Except.error (PyError.valueError ("time data " ++ s ++ " does not match format %Y-%m-%d"))
  | some ymd =>
    match ymd with
    | (y, m, d, rest) =>
      if rest.length ≠ 0 then Except.error (PyError.valueError "unconverted data remains")
      else if y = 0 then Except.error (PyError.valueError "year 0 is out of range")
      else if d > daysInMonth y m then
        Except.error (PyError.valueError "day is out of range for month")
      else Except.ok { year := y, month := m, day := d, hour := 0, minute := 0,
                       second := 0, microsecond := 0 }

/-- The entry point `main` (lines 93-100): parse argv, parse the date, run
the fetch step, then the render step. The filesystem is passed explicitly
so that "no network access before the date is validated" is expressible as
independence from `fs`. -/
def main (fs : S3) (argv : List String) : Except PyError Figure :=
  match parse_args argv with
  | Except.error e => Except.error e
  | Except.ok dateStr =>
    match strptime dateStr with
    | Except.error e => Except.error e
    | Except.ok date =>
      match fetch_glm_day fs date with
      | Except.error e => Except.error e
      | Except.ok abc => Except.ok (plot_events abc.1 abc.2.1 abc.2.2 date)

/-! Concrete instances used to exercise the model. -/

/-- A remote store on which every listing succeeds with no matches. -/
def fsEmpty : S3 :=
  { glob := fun _ => Except.ok []
    openDS := fun _ => Except.error "unreachable" }

/-- The datetime produced by `strptime("2024-01-01", "%Y-%m-%d")`. -/
def date0 : Datetime :=
  { year := 2024, month := 1, day := 1, hour := 0, minute := 0, second := 0, microsecond := 0 }

/-- The same calendar day as `date0`, late in the evening. -/
def date0h : Datetime :=
  { year := 2024, month := 1, day := 1, hour := 23, minute := 59, second := 59,
    microsecond := 123 }

/-- A one-event object. -/
def objA : GlmObject := { event_lat := [1], event_lon := [10], event_energy := [100] }

/-- A two-event object. -/
def objB : GlmObject := { event_lat := [2, 3], event_lon := [20, 30], event_energy := [200, 300] }

/-- A store holding two objects in hour 05 of 2024-001, listed out of
lexical order. -/
def fsW : S3 :=
  { glob := fun p =>
      if p == hourPath "2024" "001" 5 ++ "*.nc" then Except.ok ["b.nc", "a.nc"]
      else Except.ok []
    openDS := fun p => if p == "a.nc" then Except.ok objA else Except.ok objB }

/-- A store whose listing faults exactly on hour 03 of 2024-001. -/
def fsFault : S3 :=
  { glob := fun p =>
      if p == hourPath "2024" "001" 3 ++ "*.nc" then Except.error "boom"
      else Except.ok []
    openDS := fun _ => Except.error "unreachable" }

/-- A heap with three one-element arrays. -/
def heap3 : Heap := ⟨[[1], [2], [3]]⟩

/-! Helper lemmas relating the accumulator loops of `fetch_glm_day` to the
spec-shaped description `spec_fetch`. -/

/-- The inner file loop equals mapping `openObj` over the paths and
appending the extracted columns to the accumulators. -/
theorem processFiles_eq (fs : S3) (paths : List String) :
    ∀ lats lons energy, processFiles fs paths lats lons energy =
      match exceptMapM (openObj fs) paths with
      | Except.error e => Except.error e
      | Except.ok objs =>
        Except.ok (lats ++ objs.map GlmObject.event_lat,
                   lons ++ objs.map GlmObject.event_lon,
                   energy ++ objs.map GlmObject.event_energy) := by
  induction paths with
  | nil => intro A B C; simp [processFiles, exceptMapM]
  | cons p rest ih =>
    intro A B C
    simp only [processFiles, exceptMapM, openObj]
    cases hfs : fs.openDS p with
    | error e => simp
    | ok ds =>
      simp only [ih]
      cases hrest : exceptMapM (openObj fs) rest with
      | error e => simp
      | ok objs => simp

/-- The outer hour loop equals mapping `hourObjects` over the hours and
appending the flattened columns to the accumulators. -/
theorem processHours_eq (fs : S3) (year doy : String) (hs : List Nat) :
    ∀ lats lons energy, processHours fs year doy hs lats lons energy =
      match exceptMapM (hourObjects fs year doy) hs with
      | Except.error e => Except.error e
      | Except.ok objss =>
        Except.ok (lats ++ objss.flatten.map GlmObject.event_lat,
                   lons ++ objss.flatten.map GlmObject.event_lon,
                   energy ++ objss.flatten.map GlmObject.event_energy) := by
  induction hs with
  | nil => intro A B C; simp [processHours, exceptMapM]
  | cons h rest ih =>
    intro A B C
    simp only [processHours, exceptMapM, hourObjects]
    cases hg : fs.glob (hourPath year doy h ++ "*.nc") with
    | error exc => simp
    | ok names =>
      simp only [processFiles_eq]
      cases hfiles : exceptMapM (openObj fs) (pySorted names) with
      | error e => simp
      | ok objs =>
        simp only [ih]
        cases hrest : exceptMapM (hourObjects fs year doy) rest with
        | error e => simp
        | ok objss => simp

/-- The fetch step implements its spec-shaped description: enumerate the
24 hour-buckets in order, consume each hour's matching objects in lexical
name order, and concatenate the per-object columns in that order. -/
theorem fetch_eq_spec (fs : S3) (date : Datetime) :
    fetch_glm_day fs date = spec_fetch fs date := by
  simp only [fetch_glm_day, spec_fetch, dayObjects, dayObjectsYD, processHours_eq]
  cases h : exceptMapM (hourObjects fs (strftimeY date) (strftimeJ date)) (List.range 24) with
  | error e => simp
  | ok objss => simp

/-- Split `List.range n` at an element `h < n`. -/
theorem range_split (h n : Nat) (hlt : h < n) :
    List.range n = List.range h ++ h :: (List.range (n - h - 1)).map (fun i => h + 1 + i) := by
  conv_lhs => rw [show n = h + 1 + (n - h - 1) by omega]
  rw [List.range_add, List.range_succ]
  simp [List.append_assoc]

/-- If every element before `a` maps to a success and `a` maps to an error,
the effectful map returns that error. -/
theorem exceptMapM_append_error {α β : Type} (f : α → Except PyError β) (l1 : List α) (a : α)
    (l2 : List α) (e : PyError)
    (h1 : ∀ x ∈ l1, ∃ y, f x = Except.ok y) (h2 : f a = Except.error e) :
    exceptMapM f (l1 ++ a :: l2) = Except.error e := by
  induction l1 with
  | nil => simp [exceptMapM, h2]
  | cons x l ih =>
    obtain ⟨y, hy⟩ := h1 x (by simp)
    have ihh := ih (fun z hz => h1 z (by simp [hz]))
    simp [List.cons_append, exceptMapM, hy, ihh]

/-- If every hour of `hs` lists zero matching objects, the hour loop leaves
the accumulators untouched. -/
theorem processHours_all_empty (fs : S3) (year doy : String) (hs : List Nat)
    (hg : ∀ h ∈ hs, fs.glob (hourPath year doy h ++ "*.nc") = Except.ok []) :
    ∀ lats lons energy, processHours fs year doy hs lats lons energy =
      Except.ok (lats, lons, energy) := by
  induction hs with
  | nil => intro A B C; simp [processHours]
  | cons h rest ih =>
    intro A B C
    simp only [processHours, hg h (by simp)]
    simp only [pySorted, List.foldl_nil, processFiles]
    exact ih (fun z hz => hg z (by simp [hz])) A B C

/-- C1: for every day on which `fetch_glm_day` returns successfully (with
per-object columns of equal length, the schema the script consumes), the
three returned sequences have equal length, that length is the sum of the
event counts of all successfully opened objects, and the events appear in
hour order (00-23) and, within each hour, in lexical order of the object
names — expressed as equality to the concatenation of the columns of
`dayObjects`, whose definition enumerates hours 00-23 in order and sorts
each hour's names lexically. -/
theorem fetch_glm_day_success_shape (fs : S3) (date : Datetime) (objs : List GlmObject)
    (a b c : List ℚ)
    (hobjs : dayObjects fs date = Except.ok objs)
    (hwf : ∀ o ∈ objs, o.event_lon.length = o.event_lat.length ∧
      o.event_energy.length = o.event_lat.length)
    (hok : fetch_glm_day fs date = Except.ok (a, b, c)) :
    a = (objs.map GlmObject.event_lat).flatten ∧
    b = (objs.map GlmObject.event_lon).flatten ∧
    c = (objs.map GlmObject.event_energy).flatten ∧
    a.length = b.length ∧ a.length = c.length ∧
    a.length = (objs.map (fun o => o.event_lat.length)).sum := by
  rw [fetch_eq_spec] at hok
  unfold spec_fetch at hok
  rw [hobjs] at hok
  by_cases hnil : objs = []
  · subst hnil
    simp [np_concatenate] at hok
  · have hne : ∀ f : GlmObject → List ℚ, (objs.map f).isEmpty = false := by
      intro f
      simp [List.isEmpty_iff, hnil]
    simp only [np_concatenate, hne, Bool.false_eq_true, if_false] at hok
    obtain ⟨ha, hb, hc⟩ : (objs.map GlmObject.event_lat).flatten = a ∧
        (objs.map GlmObject.event_lon).flatten = b ∧
        (objs.map GlmObject.event_energy).flatten = c := by
      injection hok with h1
      exact ⟨congrArg Prod.fst h1, congrArg (fun t => t.2.1) h1, congrArg (fun t => t.2.2) h1⟩
    subst ha hb hc
    have key : ∀ f g : GlmObject → List ℚ, (∀ o ∈ objs, (f o).length = (g o).length) →
        (objs.map f).flatten.length = (objs.map g).flatten.length := by
      intro f g hfg
      simp only [List.length_flatten, List.map_map]
      refine congrArg List.sum (List.map_congr_left ?_)
      intro o ho
      exact hfg o ho
    refine ⟨rfl, rfl, rfl, ?_, ?_, ?_⟩
    · exact key _ _ (fun o ho => ((hwf o ho).1).symm)
    · exact key _ _ (fun o ho => ((hwf o ho).2).symm)
    · simp only [List.length_flatten, List.map_map]
      rfl

/-- Witness for C1 on a store with two objects in hour 05, listed out of
lexical order: the result is `[obj a ; obj b]`-ordered and the lengths add
up. -/
theorem fetch_glm_day_success_shape_w :
    (dayObjects fsW date0 = Except.ok [objA, objB] ∧
      fetch_glm_day fsW date0 = Except.ok ([1, 2, 3], [10, 20, 30], [100, 200, 300])) ∧
    ([(1 : ℚ), 2, 3] = ([objA, objB].map GlmObject.event_lat).flatten ∧
      [(10 : ℚ), 20, 30] = ([objA, objB].map GlmObject.event_lon).flatten ∧
      [(100 : ℚ), 200, 300] = ([objA, objB].map GlmObject.event_energy).flatten ∧
      [(1 : ℚ), 2, 3].length = [(10 : ℚ), 20, 30].length ∧
      [(1 : ℚ), 2, 3].length = [(100 : ℚ), 200, 300].length ∧
      [(1 : ℚ), 2, 3].length = ([objA, objB].map (fun o => o.event_lat.length)).sum) :=
  ⟨⟨by decide, by decide⟩,
    fetch_glm_day_success_shape fsW date0 [objA, objB] [1, 2, 3] [10, 20, 30]
      [100, 200, 300] (by decide) (by decide) (by decide)⟩

/-- C2 counterexample: on a day with zero matching objects in every hour,
`fetch_glm_day` does NOT return three empty sequences — `np.concatenate`
of the empty accumulator list raises `ValueError`, so the fetch step
raises. -/
theorem fetch_glm_day_empty_day_raises :
    fetch_glm_day fsEmpty date0 =
      Except.error (PyError.valueError "need at least one array to concatenate") := by
  decide

/-- C2 amended: for a day on which every one of the 24 hour listings
yields zero matching objects, `fetch_glm_day` raises the `ValueError` of
`np.concatenate` (it does not return empty sequences), while
`plot_events` applied to three empty sequences does produce a figure with
an empty scatter. -/
theorem fetch_glm_day_empty_day (fs : S3) (date : Datetime)
    (hglob : ∀ h, h < 24 →
      fs.glob (hourPath (strftimeY date) (strftimeJ date) h ++ "*.nc") = Except.ok []) :
    fetch_glm_day fs date =
      Except.error (PyError.valueError "need at least one array to concatenate") ∧
    (plot_events [] [] [] date).points = [] := by
  constructor
  · simp only [fetch_glm_day]
    rw [processHours_all_empty fs _ _ _ (fun z hz => hglob z (List.mem_range.mp hz))]
    rfl
  · rfl

/-- Witness for the amended C2 on the all-empty store. -/
theorem fetch_glm_day_empty_day_w :
    (∀ h, h < 24 →
      fsEmpty.glob (hourPath (strftimeY date0) (strftimeJ date0) h ++ "*.nc") = Except.ok []) ∧
    (fetch_glm_day fsEmpty date0 =
      Except.error (PyError.valueError "need at least one array to concatenate") ∧
    (plot_events [] [] [] date0).points = []) :=
  ⟨by decide, fetch_glm_day_empty_day fsEmpty date0 (by decide)⟩

/-- C3: if listing the objects for a single hour faults (and the hours
before it list and open cleanly), `fetch_glm_day` raises the
`RuntimeError` whose message names the offending prefix; no sequences are
returned. -/
theorem fetch_glm_day_listing_fault (fs : S3) (date : Datetime) (h : Nat) (exc : String)
    (hh : h < 24)
    (hfail : fs.glob (hourPath (strftimeY date) (strftimeJ date) h ++ "*.nc") =
      Except.error exc)
    (hpre : ∀ h2, h2 < h → ∃ objs,
      hourObjects fs (strftimeY date) (strftimeJ date) h2 = Except.ok objs) :
    fetch_glm_day fs date = Except.error (PyError.runtimeError
      ("Failed to list files for " ++ hourPath (strftimeY date) (strftimeJ date) h ++
        ": " ++ exc)) := by
  rw [fetch_eq_spec]
  have hfa : hourObjects fs (strftimeY date) (strftimeJ date) h = Except.error
      (PyError.runtimeError ("Failed to list files for " ++
        hourPath (strftimeY date) (strftimeJ date) h ++ ": " ++ exc)) := by
    simp [hourObjects, hfail]
  unfold spec_fetch dayObjects dayObjectsYD
  rw [range_split h 24 hh,
    exceptMapM_append_error _ _ _ _ _ (fun x hx => hpre x (List.mem_range.mp hx)) hfa]

/-- Witness for C3 on a store whose listing faults exactly on hour 03. -/
theorem fetch_glm_day_listing_fault_w :
    (3 < 24 ∧
      fsFault.glob (hourPath (strftimeY date0) (strftimeJ date0) 3 ++ "*.nc") =
        Except.error "boom") ∧
    fetch_glm_day fsFault date0 = Except.error (PyError.runtimeError
      ("Failed to list files for " ++ hourPath (strftimeY date0) (strftimeJ date0) 3 ++
        ": " ++ "boom")) :=
  ⟨⟨by decide, by decide⟩,
    fetch_glm_day_listing_fault fsFault date0 3 "boom" (by decide) (by decide)
      (fun h2 hh2 => ⟨[], (by decide : ∀ h2, h2 < 3 →
        hourObjects fsFault (strftimeY date0) (strftimeJ date0) h2 = Except.ok []) h2 hh2⟩)⟩

/-- C6: for every date, `fetch_glm_day` behaves exactly as the spec-shaped
description `spec_fetch` — it enumerates precisely the 24 hour-buckets 00
through 23 of the date, lists each under the prefix
`noaa-goes16/GLM-L2-LCFA/<year>/<day-of-year>/<two-digit-hour>/`, and
consumes each hour's matching objects in lexical name order — and the hour
prefix has exactly that bucket/product/year/day-of-year/hour form. -/
theorem fetch_glm_day_enumerates_hours (fs : S3) (date : Datetime) :
    fetch_glm_day fs date = spec_fetch fs date ∧
    ∀ h, hourPath (strftimeY date) (strftimeJ date) h =
      "noaa-goes16/GLM-L2-LCFA/" ++ strftimeY date ++ "/" ++ strftimeJ date ++ "/" ++
        twoDigit h ++ "/" :=
  ⟨fetch_eq_spec fs date, fun _ => rfl⟩

/-- C7: the concatenation performed by the fetch step preserves the total
event count — for any non-empty list of per-object arrays, `np.concatenate`
succeeds and the result length is the sum of the individual lengths. -/
theorem np_concatenate_length (xs : List (List ℚ)) (h : xs ≠ []) :
    ∃ r, np_concatenate xs = Except.ok r ∧ r.length = (xs.map List.length).sum := by
  refine ⟨xs.flatten, ?_, List.length_flatten xs⟩
  simp [np_concatenate, List.isEmpty_iff, h]

/-- Witness for C7 on a two-array mock dataset. -/
theorem np_concatenate_length_w :
    ([[(1 : ℚ)], [2, 3]] ≠ ([] : List (List ℚ))) ∧
    ∃ r, np_concatenate [[(1 : ℚ)], [2, 3]] = Except.ok r ∧
      r.length = ([[(1 : ℚ)], [2, 3]].map List.length).sum :=
  ⟨by decide, np_concatenate_length [[(1 : ℚ)], [2, 3]] (by decide)⟩

/-- C8: under the precondition that every energy value is strictly
positive, every argument the colour transform hands to `np.log10` (the
`colorArgs` of the produced figure) is strictly positive. -/
theorem plot_events_log_args_pos (lat lon energy : List ℚ) (date : Datetime)
    (h : ∀ e ∈ energy, 0 < e) :
    ∀ x ∈ (plot_events lat lon energy date).colorArgs, 0 < x := by
  simpa [plot_events] using h

/-- Witness for C8 with two positive energies. -/
theorem plot_events_log_args_pos_w :
    (∀ e ∈ [(1 : ℚ), 2], 0 < e) ∧
    ∀ x ∈ (plot_events [] [] [(1 : ℚ), 2] date0).colorArgs, 0 < x :=
  ⟨by decide, plot_events_log_args_pos [] [] [(1 : ℚ), 2] date0 (by decide)⟩

/-- C9: `fetch_glm_day` depends only on the calendar date of its argument:
two datetimes on the same day yield identical hour prefixes and identical
results over the same remote contents. -/
theorem fetch_glm_day_date_only (fs : S3) (d1 d2 : Datetime)
    (hy : d1.year = d2.year) (hm : d1.month = d2.month) (hd : d1.day = d2.day) :
    (∀ h, hourPath (strftimeY d1) (strftimeJ d1) h =
      hourPath (strftimeY d2) (strftimeJ d2) h) ∧
    fetch_glm_day fs d1 = fetch_glm_day fs d2 := by
  have hY : strftimeY d1 = strftimeY d2 := by simp [strftimeY, hy]
  have hJ : strftimeJ d1 = strftimeJ d2 := by simp [strftimeJ, dayOfYear, hy, hm, hd]
  exact ⟨fun h => by rw [hY, hJ], by simp only [fetch_glm_day, hY, hJ]⟩

/-- Witness for C9: midnight versus late evening of the same day. -/
theorem fetch_glm_day_date_only_w :
    (date0.year = date0h.year ∧ date0.month = date0h.month ∧ date0.day = date0h.day) ∧
    ((∀ h, hourPath (strftimeY date0) (strftimeJ date0) h =
      hourPath (strftimeY date0h) (strftimeJ date0h) h) ∧
    fetch_glm_day fsW date0 = fetch_glm_day fsW date0h) :=
  ⟨⟨rfl, rfl, rfl⟩, fetch_glm_day_date_only fsW date0 date0h rfl rfl rfl⟩

/-- C10: `plot_events` leaves its input arrays unchanged — the heap after
the call is the old heap extended with one fresh array (the image of
`energy` under `log10`), and every pre-existing array reads back
unchanged. -/
theorem plot_events_heap_frame (lg : ℚ → ℚ) (h : Heap) (latId lonId energyId : Nat)
    (date : Datetime) :
    (plot_events_heap lg h latId lonId energyId date).2.cells =
      h.cells ++ [(h.read energyId).map lg] ∧
    ∀ i, i < h.cells.length →
      (plot_events_heap lg h latId lonId energyId date).2.read i = h.read i := by
  refine ⟨rfl, ?_⟩
  intro i hi
  show Heap.read ⟨h.cells ++ [(h.read energyId).map lg]⟩ i = h.read i
  simp [Heap.read, List.getD, List.getElem?_append_left hi]

/-- Witness for C10 on a three-array heap. -/
theorem plot_events_heap_frame_w :
    (2 < heap3.cells.length) ∧
    (plot_events_heap (fun q => q) heap3 0 1 2 date0).2.read 2 = heap3.read 2 :=
  ⟨by decide, (plot_events_heap_frame (fun q => q) heap3 0 1 2 date0).2 2 (by decide)⟩

/-- C4: for every date-argument string the `strptime` step rejects, `main`
fails with an error that does not depend on the remote filesystem — in
particular no listing or open is consulted before the failure. -/
theorem main_malformed_date_fails_before_network (s : String) (e : PyError)
    (h : strptime s = Except.error e) :
    ∃ e2, ∀ fs, main fs [s] = Except.error e2 := by
  by_cases hs : optionLike s
  · exact ⟨PyError.usageError "option-like argument", fun fs => by
      simp [main, parse_args, hs]⟩
  · exact ⟨e, fun fs => by simp [main, parse_args, hs, h]⟩

/-- Witness for C4 on the malformed date string of the spec. -/
theorem main_malformed_date_fails_before_network_w :
    (strptime "2024/01/01" = Except.error (PyError.valueError
      "time data 2024/01/01 does not match format %Y-%m-%d")) ∧
    ∃ e2, ∀ fs, main fs ["2024/01/01"] = Except.error e2 :=
  ⟨by decide, main_malformed_date_fails_before_network "2024/01/01"
    (PyError.valueError "time data 2024/01/01 does not match format %Y-%m-%d") (by decide)⟩

/-- C5 counterexample: the malformed date `"2024/01/01"` is NOT surfaced
by the argument parser as a usage error — the parser accepts it verbatim;
the rejection happens only at the later `strptime` call, as a
`ValueError`. -/
theorem parser_accepts_malformed_date :
    parse_args ["2024/01/01"] = Except.ok "2024/01/01" ∧
    strptime "2024/01/01" = Except.error (PyError.valueError
      "time data 2024/01/01 does not match format %Y-%m-%d") :=
  ⟨by decide, by decide⟩

/-- C5 amended: a malformed (non-option-like) date argument is accepted by
the argument parser and surfaced after parsing, by the `strptime` call in
`main`, as a `ValueError` — not as a parser usage error. -/
theorem malformed_date_value_error (s : String) (m : String) (fs : S3)
    (hs : optionLike s = false)
    (h : strptime s = Except.error (PyError.valueError m)) :
    parse_args [s] = Except.ok s ∧
    main fs [s] = Except.error (PyError.valueError m) := by
  constructor
  · simp [parse_args, hs]
  · simp [main, parse_args, hs, h]

/-- Witness for the amended C5. -/
theorem malformed_date_value_error_w :
    (optionLike "2024/01/01" = false ∧
      strptime "2024/01/01" = Except.error (PyError.valueError
        "time data 2024/01/01 does not match format %Y-%m-%d")) ∧
    (parse_args ["2024/01/01"] = Except.ok "2024/01/01" ∧
      main fsEmpty ["2024/01/01"] = Except.error (PyError.valueError
        "time data 2024/01/01 does not match format %Y-%m-%d")) :=
  ⟨⟨by decide, by decide⟩,
    malformed_date_value_error "2024/01/01" _ fsEmpty (by decide) (by decide)⟩

end GLM
